import Mathlib

/-!
Shallow embedding of the `davbjor-chess` bitboard chess engine
(`src/lib.rs`, `src/compute.rs`, `src/lookup.rs`) and verification of the
frozen claims about it.

Conventions of the embedding:
* Rust `u64` bitboards are Lean `Nat`s kept below `2 ^ 64`; `!x` is
  `compl64 x` (xor with the all-ones 64-bit mask) and `x << n` is
  `shl64 x n` (shift followed by reduction modulo `2 ^ 64`), so that the
  wrap-around behaviour of `u64` shifts is preserved.
* Rust `usize` square indices are `Nat`.  The static table `PIECE` has 64
  entries; every Rust indexing expression `PIECE[i]` whose index can be out
  of range at run time is modelled by an explicit bounds test returning
  `Option.none` (a panic) at the corresponding call site; in-range accesses
  use the total function `PIECE i = 1 <<< i`, which agrees with the table.
* Functions that can panic return `Option` (with `none` = panic/abort);
  `move_piece` returns `Option (Except MoveError Bool × ChessBoard)` where
  `some (Except.error e, s)` models Rust `Err(msg)` (the `MoveError`
  constructors stand for the Rust error strings, in source order) and
  `some (Except.ok b, s)` models `Ok(b)`.
* `i32` counters (`halfmove_clock`, `fullmove`) are modelled as `Int`
  (overflow of `i32` is not modelled; no claim exercises it).
-/

set_option maxRecDepth 8000

/-- All-ones 64-bit mask, `u64::MAX`. -/
def u64max : Nat := 2 ^ 64 - 1

/-- Rust `!x` on `u64` (bitwise complement inside 64 bits). -/
def compl64 (x : Nat) : Nat := u64max ^^^ x

/-- Rust `x << n` on `u64`: bits shifted past bit 63 are discarded. -/
def shl64 (x n : Nat) : Nat := (x <<< n) % 2 ^ 64

/-- `PIECE[i] = 1u64 << i` from `lookup.rs` (valid for `i < 64`; out-of-range
indexing of the 64-entry table is modelled as a panic at each call site that
can reach it). -/
def PIECE (i : Nat) : Nat := 1 <<< i

/-- `MASK_RANK[r]` from `lookup.rs`: the eight bits of rank `r`. -/
def MASK_RANK (r : Nat) : Nat := 255 <<< (8 * r)

/-- `MASK_FILE[f]` from `lookup.rs`: the eight bits of file `f`. -/
def MASK_FILE (f : Nat) : Nat := 0x0101010101010101 <<< f

/-- `CLEAR_FILE[f]` from `lookup.rs`: complement of `MASK_FILE[f]`. -/
def CLEAR_FILE (f : Nat) : Nat := compl64 (MASK_FILE f)

/-- The `MOD67` bit-scan table from `compute.rs`. -/
def MOD67 : List Nat :=
  [64, 0, 1, 39, 2, 15, 40, 23,
   3, 12, 16, 59, 41, 19, 24, 54,
   4, 64, 13, 10, 17, 62, 60, 28,
   42, 30, 20, 51, 25, 44, 55, 47,
   5, 32, 64, 38, 14, 22, 11, 58,
   18, 53, 63, 9, 61, 27, 29, 50,
   43, 46, 31, 37, 21, 57, 52, 8,
   26, 49, 45, 36, 56, 7, 48, 35,
   6, 34, 33]

/-- `bit_scan` from `compute.rs`: index of the single set bit of a one-bit
bitboard via the modulo-67 table (the remainder is always `< 67`, so the
Rust indexing never panics). -/
def bit_scan (bit : Nat) : Nat := MOD67.getD (bit % 67) 0

/-- `compute_king_attacks` from `compute.rs`. -/
def compute_king_attacks (king own_pieces : Nat) : Nat :=
  let king_clip_h := king &&& CLEAR_FILE 7
  let king_clip_a := king &&& CLEAR_FILE 0
  let spot_1 := shl64 king_clip_h 7
  let spot_2 := shl64 king 8
  let spot_3 := shl64 king_clip_h 9
  let spot_4 := shl64 king_clip_h 1
  let spot_5 := king_clip_a >>> 7
  let spot_6 := king >>> 8
  let spot_7 := king_clip_a >>> 9
  let spot_8 := king_clip_a >>> 1
  let king_moves := spot_1 ||| spot_2 ||| spot_3 ||| spot_4 ||| spot_5 ||| spot_6 ||| spot_7 ||| spot_8
  king_moves &&& compl64 own_pieces

/-- `compute_knight_attacks` from `compute.rs`. -/
def compute_knight_attacks (knight own_pieces : Nat) : Nat :=
  let clip_1 := knight &&& CLEAR_FILE 0 &&& CLEAR_FILE 1
  let clip_2 := knight &&& CLEAR_FILE 0
  let clip_3 := knight &&& CLEAR_FILE 7
  let clip_4 := knight &&& CLEAR_FILE 7 &&& CLEAR_FILE 6
  let clip_5 := knight &&& CLEAR_FILE 7 &&& CLEAR_FILE 6
  let clip_6 := knight &&& CLEAR_FILE 7
  let clip_7 := knight &&& CLEAR_FILE 0
  let clip_8 := knight &&& CLEAR_FILE 0 &&& CLEAR_FILE 1
  let spot_1 := shl64 clip_1 6
  let spot_2 := shl64 clip_2 15
  let spot_3 := shl64 clip_3 17
  let spot_4 := shl64 clip_4 10
  let spot_5 := clip_5 >>> 6
  let spot_6 := clip_6 >>> 15
  let spot_7 := clip_7 >>> 17
  let spot_8 := clip_8 >>> 10
  let knight_moves := spot_1 ||| spot_2 ||| spot_3 ||| spot_4 ||| spot_5 ||| spot_6 ||| spot_7 ||| spot_8
  knight_moves &&& compl64 own_pieces

/-- `compute_white_pawn_attacks` from `compute.rs`. -/
def compute_white_pawn_attacks (white_pawn black_pieces : Nat) : Nat :=
  let spot_3 := shl64 (white_pawn &&& CLEAR_FILE 0) 7 &&& black_pieces
  let spot_4 := shl64 (white_pawn &&& CLEAR_FILE 7) 9 &&& black_pieces
  spot_3 ||| spot_4

/-- `compute_white_pawn_moves` from `compute.rs`. -/
def compute_white_pawn_moves (white_pawn all_pieces black_pieces : Nat) : Nat :=
  let spot_1 := shl64 white_pawn 8 &&& compl64 all_pieces
  let spot_2 := shl64 (spot_1 &&& MASK_RANK 2) 8 &&& compl64 all_pieces
  let pawn_attacks := compute_white_pawn_attacks white_pawn black_pieces
  spot_1 ||| spot_2 ||| pawn_attacks

/-- `compute_black_pawn_attacks` from `compute.rs`. -/
def compute_black_pawn_attacks (black_pawn white_pieces : Nat) : Nat :=
  let spot_3 := (black_pawn &&& CLEAR_FILE 0) >>> 9 &&& white_pieces
  let spot_4 := (black_pawn &&& CLEAR_FILE 7) >>> 7 &&& white_pieces
  spot_3 ||| spot_4

/-- `compute_black_pawn_moves` from `compute.rs`. -/
def compute_black_pawn_moves (black_pawn all_pieces white_pieces : Nat) : Nat :=
  let spot_1 := black_pawn >>> 8 &&& compl64 all_pieces
  let spot_2 := (spot_1 &&& MASK_RANK 5) >>> 8 &&& compl64 all_pieces
  let pawn_attacks := compute_black_pawn_attacks black_pawn white_pieces
  spot_1 ||| spot_2 ||| pawn_attacks

/-- One sliding ray of `compute_bishop_attacks` / `compute_rook_attacks`:
walk the listed squares outward; stop at the first occupied square, which is
included only when it holds an enemy piece. -/
def ray_attacks (ray : List Nat) (all_pieces enemy_pieces : Nat) : Nat :=
  match ray with
  | [] => 0
  | sq :: rest =>
    let b := PIECE sq
    if all_pieces &&& b == b then
      (if enemy_pieces &&& b == b then b else 0)
    else b ||| ray_attacks rest all_pieces enemy_pieces

/-- `compute_bishop_attacks` from `compute.rs`: the four diagonal rays from
the square of the (single-bit) input board. -/
def compute_bishop_attacks (bishop all_pieces enemy_pieces : Nat) : Nat :=
  let square := bit_scan bishop
  let tr := square / 8
  let tf := square % 8
  let up_right := (List.zip (List.range' (tr + 1) (8 - (tr + 1))) (List.range' (tf + 1) (8 - (tf + 1)))).map
    (fun p => p.1 * 8 + p.2)
  let up_left := (List.zip (List.range' (tr + 1) (8 - (tr + 1))) (List.range tf).reverse).map
    (fun p => p.1 * 8 + p.2)
  let down_left := (List.zip (List.range tr).reverse (List.range tf).reverse).map
    (fun p => p.1 * 8 + p.2)
  let down_right := (List.zip (List.range tr).reverse (List.range' (tf + 1) (8 - (tf + 1)))).map
    (fun p => p.1 * 8 + p.2)
  ray_attacks up_right all_pieces enemy_pieces |||
  ray_attacks up_left all_pieces enemy_pieces |||
  ray_attacks down_left all_pieces enemy_pieces |||
  ray_attacks down_right all_pieces enemy_pieces

/-- `compute_rook_attacks` from `compute.rs`: the four orthogonal rays from
the square of the (single-bit) input board. -/
def compute_rook_attacks (rook all_pieces enemy_pieces : Nat) : Nat :=
  let square := bit_scan rook
  let tr := square / 8
  let tf := square % 8
  let up := (List.range' (tr + 1) (8 - (tr + 1))).map (fun r => r * 8 + tf)
  let down := (List.range tr).reverse.map (fun r => r * 8 + tf)
  let right := (List.range' (tf + 1) (8 - (tf + 1))).map (fun f => tr * 8 + f)
  let left := (List.range tf).reverse.map (fun f => tr * 8 + f)
  ray_attacks up all_pieces enemy_pieces |||
  ray_attacks down all_pieces enemy_pieces |||
  ray_attacks right all_pieces enemy_pieces |||
  ray_attacks left all_pieces enemy_pieces

/-- The `PieceType` enum from `lib.rs`. -/
inductive PieceType where
  | WhitePawn
  | WhiteKnight
  | WhiteBishop
  | WhiteRook
  | WhiteQueen
  | WhiteKing
  | BlackPawn
  | BlackKnight
  | BlackBishop
  | BlackRook
  | BlackQueen
  | BlackKing
  | Empty
deriving DecidableEq, Repr

/-- `PieceType::is_white` from `lib.rs`. -/
def PieceType.is_white (p : PieceType) : Bool :=
  match p with
  | .WhitePawn => true
  | .WhiteKnight => true
  | .WhiteBishop => true
  | .WhiteRook => true
  | .WhiteQueen => true
  | .WhiteKing => true
  | _ => false

/-- `PieceType::is_king` from `lib.rs`. -/
def PieceType.is_king (p : PieceType) : Bool :=
  match p with
  | .WhiteKing => true
  | .BlackKing => true
  | _ => false

/-- `PieceType::is_pawn` from `lib.rs`. -/
def PieceType.is_pawn (p : PieceType) : Bool :=
  match p with
  | .WhitePawn => true
  | .BlackPawn => true
  | _ => false

/-- The `GameResult` enum from `lib.rs`. -/
inductive GameResult where
  | Ongoing
  | White
  | Draw
  | Black
deriving DecidableEq, Repr

/-- The `castling_rights: (bool, bool, bool, bool)` tuple of `ChessBoard`:
`c0`/`c1`/`c2`/`c3` are the Rust tuple fields `.0`/`.1`/`.2`/`.3`
(white kingside, white queenside, black kingside, black queenside). -/
structure CastlingRights where
  c0 : Bool
  c1 : Bool
  c2 : Bool
  c3 : Bool
deriving DecidableEq, Repr

/-- The `ChessBoard` struct from `lib.rs`. -/
structure ChessBoard where
  white_pawns : Nat
  white_knights : Nat
  white_bishops : Nat
  white_rooks : Nat
  white_queens : Nat
  white_kings : Nat
  black_pawns : Nat
  black_knights : Nat
  black_bishops : Nat
  black_rooks : Nat
  black_queens : Nat
  black_kings : Nat
  white_pieces : Nat
  black_pieces : Nat
  all_pieces : Nat
  whites_turn : Bool
  game_result : GameResult
  castling_rights : CastlingRights
  halfmove_clock : Int
  fullmove : Int
  player_in_check : Bool
  board : List PieceType
  promotion_piece : PieceType
  en_passant_square : Nat
  positions : List (List Nat)
deriving DecidableEq, Repr

/-- `ChessBoard::new` from `lib.rs` (the standard starting position). -/
def ChessBoard.new : ChessBoard where
  white_pawns := MASK_RANK 1
  white_knights := PIECE 1 ||| PIECE 6
  white_bishops := PIECE 2 ||| PIECE 5
  white_rooks := PIECE 0 ||| PIECE 7
  white_queens := PIECE 3
  white_kings := PIECE 4
  black_pawns := MASK_RANK 6
  black_knights := PIECE 57 ||| PIECE 62
  black_bishops := PIECE 58 ||| PIECE 61
  black_rooks := PIECE 56 ||| PIECE 63
  black_queens := PIECE 59
  black_kings := PIECE 60
  white_pieces := MASK_RANK 0 ||| MASK_RANK 1
  black_pieces := MASK_RANK 6 ||| MASK_RANK 7
  all_pieces := MASK_RANK 0 ||| MASK_RANK 1 ||| MASK_RANK 6 ||| MASK_RANK 7
  whites_turn := true
  game_result := GameResult.Ongoing
  castling_rights := ⟨true, true, true, true⟩
  halfmove_clock := 0
  fullmove := 1
  player_in_check := false
  board :=
    [PieceType.WhiteRook, PieceType.WhiteKnight, PieceType.WhiteBishop, PieceType.WhiteQueen,
     PieceType.WhiteKing, PieceType.WhiteBishop, PieceType.WhiteKnight, PieceType.WhiteRook,
     PieceType.WhitePawn, PieceType.WhitePawn, PieceType.WhitePawn, PieceType.WhitePawn,
     PieceType.WhitePawn, PieceType.WhitePawn, PieceType.WhitePawn, PieceType.WhitePawn,
     PieceType.Empty, PieceType.Empty, PieceType.Empty, PieceType.Empty,
     PieceType.Empty, PieceType.Empty, PieceType.Empty, PieceType.Empty,
     PieceType.Empty, PieceType.Empty, PieceType.Empty, PieceType.Empty,
     PieceType.Empty, PieceType.Empty, PieceType.Empty, PieceType.Empty,
     PieceType.Empty, PieceType.Empty, PieceType.Empty, PieceType.Empty,
     PieceType.Empty, PieceType.Empty, PieceType.Empty, PieceType.Empty,
     PieceType.Empty, PieceType.Empty, PieceType.Empty, PieceType.Empty,
     PieceType.Empty, PieceType.Empty, PieceType.Empty, PieceType.Empty,
     PieceType.BlackPawn, PieceType.BlackPawn, PieceType.BlackPawn, PieceType.BlackPawn,
     PieceType.BlackPawn, PieceType.BlackPawn, PieceType.BlackPawn, PieceType.BlackPawn,
     PieceType.BlackRook, PieceType.BlackKnight, PieceType.BlackBishop, PieceType.BlackQueen,
     PieceType.BlackKing, PieceType.BlackBishop, PieceType.BlackKnight, PieceType.BlackRook]
  promotion_piece := PieceType.Empty
  en_passant_square := 0
  positions := []

/-- `ChessBoard::clear` from `lib.rs`.  Note that, as in the source, the
private `promotion_piece` field is left untouched. -/
def ChessBoard.clear (s : ChessBoard) : ChessBoard :=
  { s with
    white_pawns := 0, white_knights := 0, white_bishops := 0,
    white_rooks := 0, white_queens := 0, white_kings := 0,
    black_pawns := 0, black_knights := 0, black_bishops := 0,
    black_rooks := 0, black_queens := 0, black_kings := 0,
    white_pieces := 0, black_pieces := 0, all_pieces := 0,
    whites_turn := true, game_result := GameResult.Ongoing,
    castling_rights := ⟨true, true, true, true⟩,
    halfmove_clock := 0, fullmove := 1, player_in_check := false,
    board := List.replicate 64 PieceType.Empty,
    en_passant_square := 0, positions := [] }

/-- `ChessBoard::compute_white_attacks` from `lib.rs`: every square attacked
by White, with optional override occupancies (the `None` defaults are the
stored derived boards).  As in the source, the knight call masks own pieces
with the *stored* `white_pieces`, while the pawn/king calls use the
override. -/
def compute_white_attacks (s : ChessBoard) (black_pieces_option white_pieces_option : Option Nat) : Nat :=
  let black_pieces := black_pieces_option.getD s.black_pieces
  let white_pieces := white_pieces_option.getD s.white_pieces
  let all_pieces := black_pieces ||| white_pieces
  let base :=
    compute_white_pawn_attacks (white_pieces &&& s.white_pawns) (black_pieces ||| s.en_passant_square) |||
    compute_knight_attacks (white_pieces &&& s.white_knights) s.white_pieces |||
    compute_king_attacks (white_pieces &&& s.white_kings) white_pieces
  (List.range 64).foldl (fun attacks i =>
    let attacks := if white_pieces &&& s.white_bishops &&& PIECE i != 0 then
        attacks ||| compute_bishop_attacks (PIECE i) all_pieces black_pieces
      else attacks
    let attacks := if white_pieces &&& s.white_rooks &&& PIECE i != 0 then
        attacks ||| compute_rook_attacks (PIECE i) all_pieces black_pieces
      else attacks
    let attacks := if white_pieces &&& s.white_queens &&& PIECE i != 0 then
        attacks ||| compute_bishop_attacks (PIECE i) all_pieces black_pieces
                ||| compute_rook_attacks (PIECE i) all_pieces black_pieces
      else attacks
    attacks) base

/-- `ChessBoard::compute_black_attacks` from `lib.rs`: every square attacked
by Black, with optional override occupancies. -/
def compute_black_attacks (s : ChessBoard) (black_pieces_option white_pieces_option : Option Nat) : Nat :=
  let black_pieces := black_pieces_option.getD s.black_pieces
  let white_pieces := white_pieces_option.getD s.white_pieces
  let all_pieces := black_pieces ||| white_pieces
  let base :=
    compute_black_pawn_attacks (black_pieces &&& s.black_pawns) white_pieces |||
    compute_knight_attacks (black_pieces &&& s.black_knights) black_pieces |||
    compute_king_attacks (black_pieces &&& s.black_kings) black_pieces
  (List.range 64).foldl (fun attacks i =>
    let attacks := if black_pieces &&& s.black_bishops &&& PIECE i != 0 then
        attacks ||| compute_bishop_attacks (PIECE i) all_pieces white_pieces
      else attacks
    let attacks := if black_pieces &&& s.black_rooks &&& PIECE i != 0 then
        attacks ||| compute_rook_attacks (PIECE i) all_pieces white_pieces
      else attacks
    let attacks := if black_pieces &&& s.black_queens &&& PIECE i != 0 then
        attacks ||| compute_bishop_attacks (PIECE i) all_pieces white_pieces
                ||| compute_rook_attacks (PIECE i) all_pieces white_pieces
      else attacks
    attacks) base

/-- `ChessBoard::white_in_check` from `lib.rs`. -/
def white_in_check (s : ChessBoard) (black_attacks_option white_kings_option : Option Nat) : Bool :=
  let white_kings := white_kings_option.getD s.white_kings
  let black_attacks := black_attacks_option.getD (compute_black_attacks s none none)
  white_kings &&& black_attacks != 0

/-- `ChessBoard::black_in_check` from `lib.rs`. -/
def black_in_check (s : ChessBoard) (white_attacks_option black_kings_option : Option Nat) : Bool :=
  let black_kings := black_kings_option.getD s.black_kings
  let white_attacks := white_attacks_option.getD (compute_white_attacks s none none)
  black_kings &&& white_attacks != 0

/-- `ChessBoard::piece_at` from `lib.rs` restricted to in-range indices: the
scan of the 12 piece boards in source order.  The public entry point
`piece_at` below adds the model of the out-of-bounds `PIECE[position]`
indexing panic; this core is only ever applied at `position < 64`. -/
def piece_atCore (s : ChessBoard) (position : Nat) : PieceType :=
  let square := PIECE position
  if s.all_pieces &&& square == 0 then PieceType.Empty
  else if s.white_pawns &&& square != 0 then PieceType.WhitePawn
  else if s.black_pawns &&& square != 0 then PieceType.BlackPawn
  else if s.white_knights &&& square != 0 then PieceType.WhiteKnight
  else if s.black_knights &&& square != 0 then PieceType.BlackKnight
  else if s.white_bishops &&& square != 0 then PieceType.WhiteBishop
  else if s.black_bishops &&& square != 0 then PieceType.BlackBishop
  else if s.white_rooks &&& square != 0 then PieceType.WhiteRook
  else if s.black_rooks &&& square != 0 then PieceType.BlackRook
  else if s.white_queens &&& square != 0 then PieceType.WhiteQueen
  else if s.black_queens &&& square != 0 then PieceType.BlackQueen
  else if s.white_kings &&& square != 0 then PieceType.WhiteKing
  else if s.black_kings &&& square != 0 then PieceType.BlackKing
  else PieceType.Empty

/-- Public `ChessBoard::piece_at` from `lib.rs`: it immediately evaluates
`PIECE[position]` against the 64-entry static table, so a caller-supplied
`position >= 64` aborts with an index-out-of-bounds panic (`none`). -/
def piece_at (s : ChessBoard) (position : Nat) : Option PieceType :=
  if 64 ≤ position then none else some (piece_atCore s position)

/-- `ChessBoard::get_moves` from `lib.rs`: pseudo-legal destination set of
the piece at `position`, filtered by the king-safety simulation, plus the
castling destinations for kings.  The black-piece branch of the simulation
reproduces the source exactly, including its en-passant condition that tests
`PieceType::WhitePawn` inside the black branch (lib.rs line 753). -/
def get_moves (s : ChessBoard) (position : Nat) : Nat :=
  let square := PIECE position
  let piece_type := piece_atCore s position
  let moves : Nat :=
    match piece_type with
    | PieceType.WhiteKing => compute_king_attacks square s.white_pieces
    | PieceType.WhiteQueen =>
        compute_rook_attacks square s.all_pieces s.black_pieces |||
        compute_bishop_attacks square s.all_pieces s.black_pieces
    | PieceType.WhiteRook => compute_rook_attacks square s.all_pieces s.black_pieces
    | PieceType.WhiteBishop => compute_bishop_attacks square s.all_pieces s.black_pieces
    | PieceType.WhiteKnight => compute_knight_attacks square s.white_pieces
    | PieceType.WhitePawn =>
        compute_white_pawn_moves square s.all_pieces (s.black_pieces ||| s.en_passant_square)
    | PieceType.BlackKing => compute_king_attacks square s.black_pieces
    | PieceType.BlackQueen =>
        compute_rook_attacks square s.all_pieces s.white_pieces |||
        compute_bishop_attacks square s.all_pieces s.white_pieces
    | PieceType.BlackRook => compute_rook_attacks square s.all_pieces s.white_pieces
    | PieceType.BlackBishop => compute_bishop_attacks square s.all_pieces s.white_pieces
    | PieceType.BlackKnight => compute_knight_attacks square s.black_pieces
    | PieceType.BlackPawn =>
        compute_black_pawn_moves square s.all_pieces (s.white_pieces ||| s.en_passant_square)
    | PieceType.Empty => 0
  let is_white := piece_type.is_white
  if ! piece_type.is_king then
    (List.range 64).foldl (fun moves i =>
      if moves &&& PIECE i == 0 then moves
      else if is_white then
        let black_attacks := compute_black_attacks s
          (some (s.black_pieces &&& compl64 (PIECE i)))
          (some ((s.white_pieces &&& compl64 square) ||| PIECE i))
        let black_attacks :=
          if piece_type == PieceType.WhitePawn && PIECE i == s.en_passant_square then
            compute_black_attacks s
              (some ((s.black_pieces &&& compl64 (PIECE i)) &&& compl64 (PIECE (i - 8))))
              (some ((s.white_pieces &&& compl64 square) ||| PIECE i))
          else black_attacks
        if white_in_check s (some black_attacks) none then moves &&& compl64 (PIECE i) else moves
      else
        let white_attacks := compute_white_attacks s
          (some ((s.black_pieces &&& compl64 square) ||| PIECE i))
          (some (s.white_pieces &&& compl64 (PIECE i)))
        let white_attacks :=
          if piece_type == PieceType.WhitePawn && PIECE i == s.en_passant_square then
            compute_white_attacks s
              (some ((s.black_pieces &&& compl64 square) ||| PIECE i))
              (some ((s.white_pieces &&& compl64 (PIECE i)) &&& compl64 (PIECE (i + 8))))
          else white_attacks
        if black_in_check s (some white_attacks) none then moves &&& compl64 (PIECE i) else moves)
      moves
  else
    let moves := (List.range 64).foldl (fun moves i =>
      if moves &&& PIECE i == 0 then moves
      else if is_white && white_in_check s
          (some (compute_black_attacks s
            (some (s.black_pieces &&& compl64 (PIECE i)))
            (some ((s.white_pieces &&& compl64 square) ||| PIECE i))))
          (some (PIECE i)) then
        moves &&& compl64 (PIECE i)
      else if ! is_white && black_in_check s
          (some (compute_white_attacks s
            (some ((s.black_pieces &&& compl64 square) ||| PIECE i))
            (some s.white_pieces)))
          (some (PIECE i)) then
        moves &&& compl64 (PIECE i)
      else moves) moves
    let moves :=
      if is_white && s.castling_rights.c0 &&
         (s.all_pieces &&& PIECE 5 == 0) && (s.all_pieces &&& PIECE 6 == 0) &&
         ! white_in_check s none none &&
         ! white_in_check s (some (compute_black_attacks s (some s.black_pieces)
             (some ((s.white_pieces &&& compl64 square) ||| PIECE 5)))) (some (PIECE 5)) &&
         ! white_in_check s (some (compute_black_attacks s (some s.black_pieces)
             (some ((s.white_pieces &&& compl64 square) ||| PIECE 6)))) (some (PIECE 6))
      then moves ||| PIECE 6 else moves
    let moves :=
      if is_white && s.castling_rights.c1 &&
         (s.all_pieces &&& PIECE 3 == 0) && (s.all_pieces &&& PIECE 2 == 0) &&
         (s.all_pieces &&& PIECE 1 == 0) &&
         ! white_in_check s none none &&
         ! white_in_check s (some (compute_black_attacks s (some s.black_pieces)
             (some ((s.white_pieces &&& compl64 square) ||| PIECE 3)))) (some (PIECE 3)) &&
         ! white_in_check s (some (compute_black_attacks s (some s.black_pieces)
             (some ((s.white_pieces &&& compl64 square) ||| PIECE 2)))) (some (PIECE 2))
      then moves ||| PIECE 2 else moves
    let moves :=
      if ! is_white && s.castling_rights.c2 &&
         (s.all_pieces &&& PIECE 61 == 0) && (s.all_pieces &&& PIECE 62 == 0) &&
         ! black_in_check s none none &&
         ! black_in_check s (some (compute_white_attacks s
             (some ((s.black_pieces &&& compl64 square) ||| PIECE 61))
             (some s.white_pieces))) (some (PIECE 61)) &&
         ! black_in_check s (some (compute_white_attacks s
             (some ((s.black_pieces &&& compl64 square) ||| PIECE 62))
             (some s.white_pieces))) (some (PIECE 62))
      then moves ||| PIECE 62 else moves
    let moves :=
      if ! is_white && s.castling_rights.c3 &&
         (s.all_pieces &&& PIECE 59 == 0) && (s.all_pieces &&& PIECE 58 == 0) &&
         (s.all_pieces &&& PIECE 57 == 0) &&
         ! black_in_check s none none &&
         ! black_in_check s (some (compute_white_attacks s
             (some ((s.black_pieces &&& compl64 square) ||| PIECE 59))
             (some s.white_pieces))) (some (PIECE 59)) &&
         ! black_in_check s (some (compute_white_attacks s
             (some ((s.black_pieces &&& compl64 square) ||| PIECE 58))
             (some s.white_pieces))) (some (PIECE 58))
      then moves ||| PIECE 58 else moves
    moves

/-- `ChessBoard::white_in_checkmate` from `lib.rs`. -/
def white_in_checkmate (s : ChessBoard) : Bool :=
  if white_in_check s none none = false then false
  else (List.range 64).all fun i => (s.white_pieces &&& PIECE i == 0) || (get_moves s i == 0)

/-- `ChessBoard::black_in_checkmate` from `lib.rs`. -/
def black_in_checkmate (s : ChessBoard) : Bool :=
  if black_in_check s none none = false then false
  else (List.range 64).all fun i => (s.black_pieces &&& PIECE i == 0) || (get_moves s i == 0)

/-- `ChessBoard::white_in_stalemate` from `lib.rs`, collapsed to the Boolean
the callers use: the Rust function returns `Result<bool, String>` and every
caller only tests `is_ok()`; this definition is `true` exactly when the Rust
function returns `Ok(true)` (all `Err(..)` early returns become `false`). -/
def white_in_stalemate_ok (s : ChessBoard) : Bool :=
  if ! s.whites_turn then false
  else if white_in_check s none none then false
  else (List.range 64).all fun i => (s.white_pieces &&& PIECE i == 0) || (get_moves s i == 0)

/-- `ChessBoard::black_in_stalemate` from `lib.rs`, collapsed to the Boolean
the callers use (see `white_in_stalemate_ok`). -/
def black_in_stalemate_ok (s : ChessBoard) : Bool :=
  if s.whites_turn then false
  else if black_in_check s none none then false
  else (List.range 64).all fun i => (s.black_pieces &&& PIECE i == 0) || (get_moves s i == 0)

/-- `ChessBoard::store_position` from `lib.rs`: append the 14-entry snapshot
(12 piece boards, en-passant-capturable flag, castling-rights bits). -/
def store_position (s : ChessBoard) : ChessBoard :=
  let castling : Nat := 0
  let castling := if s.castling_rights.c0 then castling ||| (1 <<< 1) else castling
  let castling := if s.castling_rights.c1 then castling ||| (1 <<< 2) else castling
  let castling := if s.castling_rights.c2 then castling ||| (1 <<< 3) else castling
  let castling := if s.castling_rights.c3 then castling ||| (1 <<< 4) else castling
  let en_passant_possible : Nat :=
    if s.en_passant_square &&&
        (compute_white_pawn_attacks s.white_pawns s.en_passant_square |||
         compute_black_pawn_attacks s.black_pawns s.en_passant_square) != 0
    then 1 else 0
  { s with positions := s.positions ++
      [[s.white_pawns, s.white_knights, s.white_bishops, s.white_rooks,
        s.white_queens, s.white_kings, s.black_pawns, s.black_knights,
        s.black_bishops, s.black_rooks, s.black_queens, s.black_kings,
        en_passant_possible, castling]] }

/-- `ChessBoard::is_three_fold_repetition` from `lib.rs`: compare the last
stored snapshot with every earlier one (the element-by-element loop of the
source is equality of the equal-length snapshot lists). -/
def is_three_fold_repetition (s : ChessBoard) : Bool :=
  let current := s.positions.getD (s.positions.length - 1) []
  let repetitions := (s.positions.take (s.positions.length - 1)).foldl
    (fun repetitions vb => if vb == current then repetitions + 1 else repetitions) 1
  3 ≤ repetitions

/-- `ChessBoard::update_board` from `lib.rs`: recompute the derived boards,
evaluate checkmate/stalemate for both sides (sequentially, as in the
source), and rebuild the `board` array. -/
def update_board (s : ChessBoard) : ChessBoard :=
  let wu := s.white_pawns ||| s.white_knights ||| s.white_bishops |||
            s.white_rooks ||| s.white_queens ||| s.white_kings
  let bu := s.black_pawns ||| s.black_knights ||| s.black_bishops |||
            s.black_rooks ||| s.black_queens ||| s.black_kings
  let s1 := { s with white_pieces := wu, black_pieces := bu, all_pieces := wu ||| bu }
  let s2 := { s1 with game_result :=
      (if black_in_checkmate s1 then GameResult.White else s1.game_result) }
  let s3 := { s2 with game_result :=
      (if white_in_checkmate s2 then GameResult.Black else s2.game_result) }
  let s4 := { s3 with game_result :=
      (if black_in_stalemate_ok s3 then GameResult.Draw else s3.game_result) }
  let s5 := { s4 with game_result :=
      (if white_in_stalemate_ok s4 then GameResult.Draw else s4.game_result) }
  { s5 with board := (List.range 64).map fun i =>
      if s5.all_pieces &&& PIECE i != 0 then piece_atCore s5 i else PieceType.Empty }

/-- `ChessBoard::update_board_after_move` from `lib.rs`: clear `from` and
`to` in all 12 boards, then set `to` in the board of `piece_type`.
`none` models the two panics of the source: indexing the 64-entry `PIECE`
table with an out-of-range square, and the `panic!` on `PieceType::Empty`. -/
def update_board_after_move (s : ChessBoard) (piece_type : PieceType) (fromSq toSq : Nat) :
    Option ChessBoard :=
  if 64 ≤ toSq || 64 ≤ fromSq then none
  else
    let m := compl64 (PIECE toSq) &&& compl64 (PIECE fromSq)
    let s := { s with
      white_pawns := s.white_pawns &&& m, white_knights := s.white_knights &&& m,
      white_bishops := s.white_bishops &&& m, white_rooks := s.white_rooks &&& m,
      white_queens := s.white_queens &&& m, white_kings := s.white_kings &&& m,
      black_pawns := s.black_pawns &&& m, black_knights := s.black_knights &&& m,
      black_bishops := s.black_bishops &&& m, black_rooks := s.black_rooks &&& m,
      black_queens := s.black_queens &&& m, black_kings := s.black_kings &&& m }
    match piece_type with
    | PieceType.WhitePawn => some { s with white_pawns := s.white_pawns ||| PIECE toSq }
    | PieceType.WhiteKnight => some { s with white_knights := s.white_knights ||| PIECE toSq }
    | PieceType.WhiteBishop => some { s with white_bishops := s.white_bishops ||| PIECE toSq }
    | PieceType.WhiteRook => some { s with white_rooks := s.white_rooks ||| PIECE toSq }
    | PieceType.WhiteQueen => some { s with white_queens := s.white_queens ||| PIECE toSq }
    | PieceType.WhiteKing => some { s with white_kings := s.white_kings ||| PIECE toSq }
    | PieceType.BlackPawn => some { s with black_pawns := s.black_pawns ||| PIECE toSq }
    | PieceType.BlackKnight => some { s with black_knights := s.black_knights ||| PIECE toSq }
    | PieceType.BlackBishop => some { s with black_bishops := s.black_bishops ||| PIECE toSq }
    | PieceType.BlackRook => some { s with black_rooks := s.black_rooks ||| PIECE toSq }
    | PieceType.BlackQueen => some { s with black_queens := s.black_queens ||| PIECE toSq }
    | PieceType.BlackKing => some { s with black_kings := s.black_kings ||| PIECE toSq }
    | PieceType.Empty => none

/-- The `Err(..)` messages of `ChessBoard::move_piece` and
`ChessBoard::handle_promotion` from `lib.rs`, in source order:
`GameFinished` = "Game is finished", `PieceDoesNotExist` = the missing-piece
message, `CannotMoveAtAll` and `CannotMoveToSquare` = the two empty-move-set
messages, `NotBlacksTurn` / `NotWhitesTurn` = the wrong-turn messages, and
the two promotion-argument messages of `handle_promotion`. -/
inductive MoveError where
  | GameFinished
  | PieceDoesNotExist
  | CannotMoveAtAll
  | CannotMoveToSquare
  | NotBlacksTurn
  | NotWhitesTurn
  | PromotionToKingOrPawn
  | WrongColorPromotion
deriving DecidableEq, Repr

/-- Castling-rights revocation block of `ChessBoard::move_piece`
(lib.rs lines 1088-1099), as a function of the mover and the source square.
It reproduces the source exactly: `from == SQUARE::H8` clears field `.0`
and `from == SQUARE::A8` clears field `.1` (the white rights). -/
def new_castling_rights (piece_type : PieceType) (fromSq : Nat) (cr : CastlingRights) :
    CastlingRights :=
  let cr := if piece_type == PieceType.WhiteKing then { cr with c0 := false, c1 := false } else cr
  let cr := if piece_type == PieceType.BlackKing then { cr with c2 := false, c3 := false } else cr
  let cr := if fromSq == 7 then { cr with c0 := false } else cr
  let cr := if fromSq == 0 then { cr with c1 := false } else cr
  let cr := if fromSq == 63 then { cr with c0 := false } else cr
  let cr := if fromSq == 56 then { cr with c1 := false } else cr
  cr

/-- Draw checks of `ChessBoard::move_piece` after the position snapshot is
stored (lib.rs lines 1117-1123): the threefold-repetition draw, then the
50-move-rule draw (only when the result is still `Ongoing` and the halfmove
clock has reached 100). -/
def move_piece_draws (s1 : ChessBoard) : ChessBoard :=
  let s2 := { s1 with game_result :=
      (if is_three_fold_repetition s1 then GameResult.Draw else s1.game_result) }
  { s2 with game_result :=
      (if s2.game_result = GameResult.Ongoing ∧ 100 ≤ s2.halfmove_clock then GameResult.Draw
      else s2.game_result) }

/-- Tail of a completed `ChessBoard::move_piece` (lib.rs lines 1112-1139):
`update_board`, `store_position`, the draw checks, the turn flip, the
`promotion_piece` reset, and the new check-status detection.  Always returns
`Ok(true)`. -/
def move_piece_tail (s0 : ChessBoard) : Except MoveError Bool × ChessBoard :=
  let s3 := move_piece_draws (store_position (update_board s0))
  let s4 := { s3 with whites_turn := ! s3.whites_turn, promotion_piece := PieceType.Empty }
  let s5 := { s4 with player_in_check :=
      (if s4.whites_turn = true ∧ white_in_check s4 none none = true then true
      else if s4.whites_turn = false ∧ black_in_check s4 none none = true then true
      else false) }
  (Except.ok true, s5)

/-- Board-mutation stage of `ChessBoard::move_piece` (lib.rs lines
1030-1110), entered after all the error checks: the main piece relocation,
the castling rook relocation, the en-passant removal (which the source
performs by calling `update_board_after_move(.., 64)`, an out-of-bounds
index of the 64-entry `PIECE` table, i.e. a panic, modelled by `none`), the
en-passant-target, halfmove-clock, fullmove and castling-rights updates, and
the promotion handling.  Returns `(true, state)` when the move stops with
the pending-promotion signal `Ok(false)` (lib.rs line 1107) and
`(false, state)` when the move goes on to `move_piece_tail`. -/
def move_piece_apply (s : ChessBoard) (piece_type : PieceType) (fromSq toSq : Nat) :
    Option (Bool × ChessBoard) :=
  let capture := s.all_pieces &&& PIECE toSq != 0
  (update_board_after_move s piece_type fromSq toSq).bind fun s1 =>
  (if piece_type == PieceType.WhiteKing && s.castling_rights.c0 && toSq == 6 then
      update_board_after_move s1 PieceType.WhiteRook 7 5
    else if piece_type == PieceType.WhiteKing && s.castling_rights.c1 && toSq == 2 then
      update_board_after_move s1 PieceType.WhiteRook 0 3
    else if piece_type == PieceType.BlackKing && s.castling_rights.c2 && toSq == 62 then
      update_board_after_move s1 PieceType.BlackRook 63 61
    else if piece_type == PieceType.BlackKing && s.castling_rights.c3 && toSq == 58 then
      update_board_after_move s1 PieceType.BlackRook 56 59
    else some s1).bind fun s2 =>
  (if piece_type == PieceType.WhitePawn && PIECE toSq == s2.en_passant_square then
      update_board_after_move s2 PieceType.BlackPawn (toSq - 8) 64
    else if piece_type == PieceType.BlackPawn && PIECE toSq == s2.en_passant_square then
      update_board_after_move s2 PieceType.WhitePawn (toSq + 8) 64
    else some s2).bind fun s3 =>
  (let s4 := { s3 with en_passant_square :=
            (if piece_type == PieceType.WhitePawn && fromSq / 8 == 1 && toSq / 8 == 3 then
              PIECE (fromSq + 8)
            else if piece_type == PieceType.BlackPawn && fromSq / 8 == 6 && toSq / 8 == 4 then
              PIECE (fromSq - 8)
            else 0) }
        let s5 := { s4 with halfmove_clock :=
            (if piece_type.is_pawn || capture then 0 else s4.halfmove_clock + 1) }
        let s6 := { s5 with fullmove :=
            (if s5.whites_turn = false then s5.fullmove + 1 else s5.fullmove) }
        let s7 := { s6 with castling_rights :=
            new_castling_rights piece_type fromSq s6.castling_rights }
        if (piece_type == PieceType.WhitePawn && toSq / 8 == 7) ||
           (piece_type == PieceType.BlackPawn && toSq / 8 == 0) then
          if s7.promotion_piece == PieceType.Empty then some (true, s7)
          else
            (update_board_after_move s7 s7.promotion_piece toSq toSq).bind fun s8 =>
              some (false, s8)
        else some (false, s7))

/-- Mutating part of `ChessBoard::move_piece` (lib.rs lines 1030-1139):
the board-mutation stage followed either by the pending-promotion
`Ok(false)` return or by `move_piece_tail`. -/
def move_piece_core (s : ChessBoard) (piece_type : PieceType) (fromSq toSq : Nat) :
    Option (Except MoveError Bool × ChessBoard) :=
  (move_piece_apply s piece_type fromSq toSq).map fun ps =>
    cond ps.1 (Except.ok false, ps.2) (move_piece_tail ps.2)

/-- `ChessBoard::move_piece` from `lib.rs`: the error checks in source order,
then the mutating core.  `none` models a panic; note that the very first
board access, `self.all_pieces & PIECE[from]`, indexes the 64-entry table
with the caller-supplied square, as does `moves & PIECE[to]` later. -/
def move_piece (s : ChessBoard) (fromSq toSq : Nat) :
    Option (Except MoveError Bool × ChessBoard) :=
  if s.game_result != GameResult.Ongoing then some (Except.error MoveError.GameFinished, s)
  else if 64 ≤ fromSq then none
  else if s.all_pieces &&& PIECE fromSq == 0 then
    some (Except.error MoveError.PieceDoesNotExist, s)
  else
    let moves := get_moves s fromSq
    if moves == 0 then some (Except.error MoveError.CannotMoveAtAll, s)
    else if 64 ≤ toSq then none
    else if moves &&& PIECE toSq == 0 then some (Except.error MoveError.CannotMoveToSquare, s)
    else
      let piece_type := piece_atCore s fromSq
      if s.whites_turn && ! piece_type.is_white then
        some (Except.error MoveError.NotBlacksTurn, s)
      else if ! s.whites_turn && piece_type.is_white then
        some (Except.error MoveError.NotWhitesTurn, s)
      else move_piece_core s piece_type fromSq toSq

/-- `ChessBoard::handle_promotion` from `lib.rs`: store the chosen promotion
piece, validate it, then delegate to `move_piece`. -/
def handle_promotion (s : ChessBoard) (fromSq toSq : Nat) (piece_type : PieceType) :
    Option (Except MoveError Bool × ChessBoard) :=
  let s := { s with promotion_piece := piece_type }
  if piece_type.is_king || piece_type.is_pawn then
    some (Except.error MoveError.PromotionToKingOrPawn, s)
  else if (s.whites_turn && ! piece_type.is_white) || (! s.whites_turn && piece_type.is_white) then
    some (Except.error MoveError.WrongColorPromotion, s)
  else move_piece s fromSq toSq

/-- `string_to_square` from `lookup.rs`: chess notation (two characters,
uppercased) to a square index, `64` on any other input. -/
def string_to_square (s : List Char) : Nat :=
  match s.map Char.toUpper with
  | ['A', '1'] => 0
  | ['B', '1'] => 1
  | ['C', '1'] => 2
  | ['D', '1'] => 3
  | ['E', '1'] => 4
  | ['F', '1'] => 5
  | ['G', '1'] => 6
  | ['H', '1'] => 7
  | ['A', '2'] => 8
  | ['B', '2'] => 9
  | ['C', '2'] => 10
  | ['D', '2'] => 11
  | ['E', '2'] => 12
  | ['F', '2'] => 13
  | ['G', '2'] => 14
  | ['H', '2'] => 15
  | ['A', '3'] => 16
  | ['B', '3'] => 17
  | ['C', '3'] => 18
  | ['D', '3'] => 19
  | ['E', '3'] => 20
  | ['F', '3'] => 21
  | ['G', '3'] => 22
  | ['H', '3'] => 23
  | ['A', '4'] => 24
  | ['B', '4'] => 25
  | ['C', '4'] => 26
  | ['D', '4'] => 27
  | ['E', '4'] => 28
  | ['F', '4'] => 29
  | ['G', '4'] => 30
  | ['H', '4'] => 31
  | ['A', '5'] => 32
  | ['B', '5'] => 33
  | ['C', '5'] => 34
  | ['D', '5'] => 35
  | ['E', '5'] => 36
  | ['F', '5'] => 37
  | ['G', '5'] => 38
  | ['H', '5'] => 39
  | ['A', '6'] => 40
  | ['B', '6'] => 41
  | ['C', '6'] => 42
  | ['D', '6'] => 43
  | ['E', '6'] => 44
  | ['F', '6'] => 45
  | ['G', '6'] => 46
  | ['H', '6'] => 47
  | ['A', '7'] => 48
  | ['B', '7'] => 49
  | ['C', '7'] => 50
  | ['D', '7'] => 51
  | ['E', '7'] => 52
  | ['F', '7'] => 53
  | ['G', '7'] => 54
  | ['H', '7'] => 55
  | ['A', '8'] => 56
  | ['B', '8'] => 57
  | ['C', '8'] => 58
  | ['D', '8'] => 59
  | ['E', '8'] => 60
  | ['F', '8'] => 61
  | ['G', '8'] => 62
  | ['H', '8'] => 63
  | _ => 64

/-- Split a character list at every occurrence of `sep` (Rust
`str::split`, which keeps empty segments). -/
def split_on_char (sep : Char) (cs : List Char) : List (List Char) :=
  match cs with
  | [] => [[]]
  | c :: rest =>
    if c == sep then [] :: split_on_char sep rest
    else
      match split_on_char sep rest with
      | [] => [[c]]
      | g :: gs => (c :: g) :: gs

/-- Digit-run accumulator for `parse_int`. -/
def parse_digits (cs : List Char) (acc : Nat) : Option Nat :=
  match cs with
  | [] => some acc
  | c :: rest =>
    if c.isDigit then parse_digits rest (acc * 10 + (c.toNat - 48)) else none

/-- Rust `str::parse::<i32>` as used by `load` (optional sign, then a
non-empty digit run; anything else fails, and the caller substitutes 0 with
`unwrap_or(0)`).  `i32` overflow is not modelled. -/
def parse_int (cs : List Char) : Option Int :=
  match cs with
  | [] => none
  | c :: rest =>
    if c == '-' then
      match rest with
      | [] => none
      | _ => (parse_digits rest 0).map (fun n => -(n : Int))
    else if c == '+' then
      match rest with
      | [] => none
      | _ => (parse_digits rest 0).map (fun n => (n : Int))
    else (parse_digits cs 0).map (fun n => (n : Int))

/-- One FEN placement row (rank `y`) of the `ChessBoard::load` loop: walk the
row characters keeping the file offset `x`; piece letters set the matching
board bit at `y*8+x`, any other character advances `x` by `digit - 1`
(as in the source, which assumes a digit there), and every character then
advances `x` by one. -/
def load_row (s : ChessBoard) (y : Nat) (row : List Char) : ChessBoard :=
  (row.foldl (fun acc c =>
    let s := acc.1
    let x := acc.2
    let pos := y * 8 + x
    let s :=
      match c with
      | 'p' => { s with black_pawns := s.black_pawns ||| PIECE pos }
      | 'n' => { s with black_knights := s.black_knights ||| PIECE pos }
      | 'b' => { s with black_bishops := s.black_bishops ||| PIECE pos }
      | 'r' => { s with black_rooks := s.black_rooks ||| PIECE pos }
      | 'q' => { s with black_queens := s.black_queens ||| PIECE pos }
      | 'k' => { s with black_kings := s.black_kings ||| PIECE pos }
      | 'P' => { s with white_pawns := s.white_pawns ||| PIECE pos }
      | 'N' => { s with white_knights := s.white_knights ||| PIECE pos }
      | 'B' => { s with white_bishops := s.white_bishops ||| PIECE pos }
      | 'R' => { s with white_rooks := s.white_rooks ||| PIECE pos }
      | 'Q' => { s with white_queens := s.white_queens ||| PIECE pos }
      | 'K' => { s with white_kings := s.white_kings ||| PIECE pos }
      | _ => s
    let x :=
      match c with
      | 'p' | 'n' | 'b' | 'r' | 'q' | 'k' | 'P' | 'N' | 'B' | 'R' | 'Q' | 'K' => x
      | _ => x + (c.toNat - 48 - 1)
    (s, x + 1)) (s, 0)).1

/-- `ChessBoard::load` from `lib.rs`: clear the board, read the placement
rows bottom-up, then side to move, castling rights (each right requires the
letter at a fixed character position of the field, as in the source, plus the
corresponding king and rook on their home squares), en passant square,
halfmove clock and fullmove number; finally recompute the derived boards and
store the position snapshot.  The string mechanics (`split`, `chars().nth`,
`to_uppercase`, `parse`) are modelled by the explicit list helpers above; the
FEN strings used in this development are well-formed, so the source's
undefined behaviour on malformed placement fields is not exercised. -/
def load (s : ChessBoard) (fen : String) : ChessBoard :=
  let s := ChessBoard.clear s
  let fen_vec := split_on_char ' ' fen.toList
  let fen_rows := (split_on_char '/' (fen_vec.getD 0 [])).reverse
  let s := (fen_rows.foldl (fun acc row => (load_row acc.1 acc.2 row, acc.2 + 1)) (s, 0)).1
  let s := if 2 ≤ fen_vec.length && fen_vec.getD 1 [] == ['w'] then
      { s with whites_turn := true } else s
  let s := if 2 ≤ fen_vec.length && fen_vec.getD 1 [] == ['b'] then
      { s with whites_turn := false } else s
  let s := { s with castling_rights := ⟨false, false, false, false⟩ }
  let s := if 3 ≤ fen_vec.length then
      let cfield := fen_vec.getD 2 []
      let cr0 := cfield.getD 0 '-' == 'K' &&
        s.white_kings &&& PIECE 4 != 0 && s.white_rooks &&& PIECE 7 != 0
      let cr1 := cfield.getD 1 '-' == 'Q' &&
        s.white_kings &&& PIECE 4 != 0 && s.white_rooks &&& PIECE 0 != 0
      let cr2 := cfield.getD 2 '-' == 'k' &&
        s.black_kings &&& PIECE 60 != 0 && s.black_rooks &&& PIECE 63 != 0
      let cr3 := cfield.getD 3 '-' == 'q' &&
        s.black_kings &&& PIECE 60 != 0 && s.black_rooks &&& PIECE 56 != 0
      { s with castling_rights := ⟨cr0, cr1, cr2, cr3⟩ }
    else s
  let s := if 4 ≤ fen_vec.length then
      let sq := string_to_square (fen_vec.getD 3 [])
      if sq != 64 then { s with en_passant_square := PIECE sq } else s
    else s
  let s := if 5 ≤ fen_vec.length then
      { s with halfmove_clock := (parse_int (fen_vec.getD 4 [])).getD 0 } else s
  let s := if 6 ≤ fen_vec.length then
      { s with fullmove := (parse_int (fen_vec.getD 5 [])).getD 0 } else s
  let s := { s with game_result := GameResult.Ongoing }
  store_position (update_board s)

/-- `ChessBoard::reset` from `lib.rs`. -/
def ChessBoard.reset (s : ChessBoard) : ChessBoard :=
  load s "rnbqkbnr/pppppppp/8/8/8/8/PPPPPPPP/RNBQKBNR w KQkq - 0 1"

/-- Calling `update_board_after_move` with target square 64 (as the
en-passant handling of `move_piece` does) always panics: the very first
statement indexes the 64-entry `PIECE` table out of bounds. -/
theorem update_board_after_move_64 (s : ChessBoard) (pt : PieceType) (a : Nat) :
    update_board_after_move s pt a 64 = none := rfl

/-- A successful `update_board_after_move` only rewrites the twelve piece
boards: every scalar field of the state is preserved. -/
theorem update_board_after_move_fields (s : ChessBoard) (pt : PieceType) (a b : Nat)
    (s' : ChessBoard) (h : update_board_after_move s pt a b = some s') :
    s'.halfmove_clock = s.halfmove_clock ∧ s'.game_result = s.game_result ∧
    s'.whites_turn = s.whites_turn ∧ s'.promotion_piece = s.promotion_piece ∧
    s'.en_passant_square = s.en_passant_square := by
  unfold update_board_after_move at h
  split at h
  · exact Option.noConfusion h
  · cases pt <;>
      first
        | exact Option.noConfusion h
        | (simp only [Option.some.injEq] at h; subst h; exact ⟨rfl, rfl, rfl, rfl, rfl⟩)

/-- `move_piece_tail` always reports `Ok(true)`. -/
theorem move_piece_tail_fst (s : ChessBoard) : (move_piece_tail s).1 = Except.ok true := rfl

/-- Nothing after the halfmove-clock update of `move_piece` touches the
clock again. -/
theorem move_piece_tail_clock (s : ChessBoard) :
    (move_piece_tail s).2.halfmove_clock = s.halfmove_clock := rfl

/-- The 50-move-rule conversion pattern: once the clock is at least 100 the
resulting game result cannot be `Ongoing`. -/
theorem draw50 (r : GameResult) (c : Int) (h : 100 ≤ c) :
    (if r = GameResult.Ongoing ∧ 100 ≤ c then GameResult.Draw else r) ≠ GameResult.Ongoing := by
  split
  · exact fun hh => GameResult.noConfusion hh
  · next hn => intro hr; exact hn ⟨hr, h⟩

/-- `move_piece_draws` never leaves an `Ongoing` result when the halfmove
clock has reached 100. -/
theorem move_piece_draws_50 (s1 : ChessBoard) (h : 100 ≤ s1.halfmove_clock) :
    (move_piece_draws s1).game_result ≠ GameResult.Ongoing :=
  draw50 (if is_three_fold_repetition s1 then GameResult.Draw else s1.game_result)
    s1.halfmove_clock h

/-- `move_piece_tail` never leaves an `Ongoing` result when the final
halfmove clock has reached 100. -/
theorem move_piece_tail_50 (s : ChessBoard) (h : 100 ≤ (move_piece_tail s).2.halfmove_clock) :
    (move_piece_tail s).2.game_result ≠ GameResult.Ongoing := by
  have h1 : (move_piece_tail s).2.game_result =
      (move_piece_draws (store_position (update_board s))).game_result := rfl
  have h2 : (move_piece_tail s).2.halfmove_clock =
      (store_position (update_board s)).halfmove_clock := rfl
  rw [h1]
  exact move_piece_draws_50 _ (by rw [h2] at h; exact h)

/-- Components of a completed `move_piece_tail` call: the `Ok(true)` result,
clock preservation, and the 50-move-rule property. -/
theorem move_piece_tail_eq (s0 : ChessBoard) (r : Except MoveError Bool) (s' : ChessBoard)
    (h : move_piece_tail s0 = (r, s')) :
    r = Except.ok true ∧ s'.halfmove_clock = s0.halfmove_clock ∧
    (100 ≤ s'.halfmove_clock → s'.game_result ≠ GameResult.Ongoing) := by
  have h1 := congrArg Prod.fst h
  have h2 := congrArg Prod.snd h
  dsimp only at h1 h2
  rw [move_piece_tail_fst] at h1
  subst h2
  exact ⟨h1.symm, move_piece_tail_clock s0, fun hh => move_piece_tail_50 s0 hh⟩

/-- The game result right before the 50-move check of `move_piece`
(lib.rs line 1121): the result after `update_board`'s checkmate/stalemate
evaluation and the threefold-repetition check.  When that result is still
`Ongoing` and the halfmove clock has reached 100, the draw stage sets
`Draw`. -/
theorem move_piece_draws_ongoing (s1 : ChessBoard)
    (hr : (if is_three_fold_repetition s1 then GameResult.Draw else s1.game_result) =
      GameResult.Ongoing)
    (hc : 100 ≤ s1.halfmove_clock) :
    (move_piece_draws s1).game_result = GameResult.Draw := by
  unfold move_piece_draws
  dsimp only
  rw [if_pos ⟨hr, hc⟩]

/-- Everything after the draw checks of `move_piece` leaves the game result
untouched: the final result of `move_piece_tail` is the result produced by
`move_piece_draws` on the stored position. -/
theorem move_piece_tail_result (s0 : ChessBoard) :
    (move_piece_tail s0).2.game_result =
      (move_piece_draws (store_position (update_board s0))).game_result := rfl

/-- `update_board` and `store_position` do not touch the halfmove clock. -/
theorem store_update_clock (s0 : ChessBoard) :
    (store_position (update_board s0)).halfmove_clock = s0.halfmove_clock := rfl

/-- Every `some` result of the board-mutation stage carries the updated
halfmove clock (0 on a pawn move or capture, the old value plus one
otherwise), and the pending-promotion outcome only arises for pawns. -/
theorem move_piece_apply_spec (s : ChessBoard) (pt : PieceType) (fromSq toSq : Nat)
    (pend : Bool) (sApp : ChessBoard)
    (h : move_piece_apply s pt fromSq toSq = some (pend, sApp)) :
    sApp.halfmove_clock =
      (if pt.is_pawn || (s.all_pieces &&& PIECE toSq != 0) then 0 else s.halfmove_clock + 1) ∧
    (pend = true → pt.is_pawn = true) := by
  simp only [move_piece_apply, Option.bind_eq_some] at h
  obtain ⟨s1, h1, s2, h2, s3, h3, h⟩ := h
  have f1 := update_board_after_move_fields _ _ _ _ _ h1
  have f2 : s2.halfmove_clock = s1.halfmove_clock := by
    split at h2
    · exact (update_board_after_move_fields _ _ _ _ _ h2).1
    · split at h2
      · exact (update_board_after_move_fields _ _ _ _ _ h2).1
      · split at h2
        · exact (update_board_after_move_fields _ _ _ _ _ h2).1
        · split at h2
          · exact (update_board_after_move_fields _ _ _ _ _ h2).1
          · simp only [Option.some.injEq] at h2; rw [← h2]
  have f3 : s3 = s2 := by
    split at h3
    · rw [update_board_after_move_64] at h3; exact Option.noConfusion h3
    · split at h3
      · rw [update_board_after_move_64] at h3; exact Option.noConfusion h3
      · simp only [Option.some.injEq] at h3; exact h3.symm
  have hclock3 : s3.halfmove_clock = s.halfmove_clock := by rw [f3, f2, f1.1]
  split at h
  · next hpromo =>
    have hpawn : pt.is_pawn = true := by
      rcases Bool.or_eq_true_iff.mp hpromo with hw | hb
      · rw [eq_of_beq (Bool.and_eq_true_iff.mp hw).1]; rfl
      · rw [eq_of_beq (Bool.and_eq_true_iff.mp hb).1]; rfl
    split at h
    · simp only [Option.some.injEq, Prod.mk.injEq] at h
      obtain ⟨-, hs⟩ := h
      refine ⟨?_, fun _ => hpawn⟩
      rw [← hs]; dsimp only; rw [hclock3]
    · rw [Option.bind_eq_some] at h
      obtain ⟨s8, h8, h⟩ := h
      simp only [Option.some.injEq, Prod.mk.injEq] at h
      obtain ⟨-, hs⟩ := h
      have f8 := (update_board_after_move_fields _ _ _ _ _ h8).1
      dsimp only at f8
      rw [hclock3] at f8
      refine ⟨?_, fun _ => hpawn⟩
      rw [← hs, f8]
  · simp only [Option.some.injEq, Prod.mk.injEq] at h
    obtain ⟨hp, hs⟩ := h
    refine ⟨?_, fun hpt => absurd (hp.trans hpt) (by simp)⟩
    rw [← hs]; dsimp only; rw [hclock3]

/-- Every `some` result of `move_piece_core` is an `Ok` result whose state
has the halfmove clock reset on a pawn move or capture and incremented
otherwise, whose game result is not `Ongoing` once that clock has reached
100, and which — for the completed `Ok(true)` outcome — is the
`move_piece_tail` of the board-mutation stage's output. -/
theorem move_piece_core_spec (s : ChessBoard) (pt : PieceType) (fromSq toSq : Nat)
    (r : Except MoveError Bool) (s' : ChessBoard)
    (h : move_piece_core s pt fromSq toSq = some (r, s')) :
    (∃ b, r = Except.ok b) ∧
    s'.halfmove_clock =
      (if pt.is_pawn || (s.all_pieces &&& PIECE toSq != 0) then 0 else s.halfmove_clock + 1) ∧
    (100 ≤ s'.halfmove_clock → s'.game_result ≠ GameResult.Ongoing) ∧
    (r = Except.ok true →
      ∃ s0 : ChessBoard, move_piece_apply s pt fromSq toSq = some (false, s0) ∧
        s' = (move_piece_tail s0).2) := by
  simp only [move_piece_core, Option.map_eq_some'] at h
  obtain ⟨⟨pend, sApp⟩, hApp, hf⟩ := h
  obtain ⟨hclk, hpend⟩ := move_piece_apply_spec _ _ _ _ _ _ hApp
  cases pend
  · dsimp only [cond] at hf
    obtain ⟨hr, hclk', h50⟩ := move_piece_tail_eq _ _ _ hf
    refine ⟨⟨true, hr⟩, ?_, h50, fun _ => ⟨sApp, hApp, ?_⟩⟩
    · rw [hclk', hclk]
    · exact (congrArg Prod.snd hf).symm
  · dsimp only [cond] at hf
    simp only [Prod.mk.injEq] at hf
    obtain ⟨hr, hs⟩ := hf
    have hpawn := hpend rfl
    refine ⟨⟨false, hr.symm⟩, ?_, ?_, fun hok => ?_⟩
    · rw [← hs, hclk]
    · rw [← hs, hclk, hpawn]
      simp only [Bool.true_or, if_pos]
      intro h100 _
      omega
    · rw [← hr] at hok
      exact Bool.noConfusion (Except.ok.inj hok)

/-- The en-passant position of the repository's own `en_passant` test and of
the spec (§8, property 5); White to move, en-passant target d6 (square 43). -/
def epState : ChessBoard :=
  load ChessBoard.new "rnbqkbnr/1p3p1p/8/P1PpP1P1/p1p1p1pP/8/1P1P1P2/RNBQKBNR w KQkq d6 0 1"

/-- Black to move with en-passant target c3 (square 18): the black pawn d4
(square 27) can capture en passant on c3, but removing the white c4 pawn
(square 26) would open the a4 rook's line to the black king on h4. -/
def bepState : ChessBoard := load ChessBoard.new "8/8/8/8/R1Pp3k/8/8/7K b - c3 0 1"

/-- Both sides still hold all four castling rights; Black to move. -/
def castleState : ChessBoard := load ChessBoard.new "r3k2r/8/8/8/8/8/8/R3K2R b KQkq - 0 1"

/-- White to move; the queen move c2-c7 stalemates the black king on a8
(the h1 rook also covers h8, the square the engine's wrap-around king
pattern offers to an a8 king). -/
def qcState : ChessBoard := load ChessBoard.new "k7/8/8/8/8/8/2Q5/6KR w - - 0 1"

/-- White to move; the a7 pawn promotes by moving to a8 (square 48 to 56). -/
def promoState : ChessBoard := load ChessBoard.new "8/P6k/8/8/8/8/8/7K w - - 0 1"

/-- The `castleState` position but with castling-rights field `kq`: both
black letters appear and the black king and rooks stand on their original
squares. -/
def kqState : ChessBoard := load ChessBoard.new "r3k2r/8/8/8/8/8/8/R3K2R w kq - 0 1"

/-- State after Black's rook move h8-g8 (squares 63 to 62) in `castleState`. -/
def castleAfter : ChessBoard := ((move_piece castleState 63 62).getD (Except.ok false, castleState)).2

/-- State after White's queen move c2-c7 (squares 10 to 50) in `qcState`. -/
def qcAfter : ChessBoard := ((move_piece qcState 10 50).getD (Except.ok false, qcState)).2

/-- State after White's pawn move a7-a8 (squares 48 to 56) in `promoState`
with no promotion piece chosen. -/
def promoAfter : ChessBoard := ((move_piece promoState 48 56).getD (Except.ok false, promoState)).2

/-- The starting position with a terminal game result, so that any
`move_piece` call fails with the game-finished error. -/
def overState : ChessBoard := { ChessBoard.new with game_result := GameResult.Draw }

/-- State returned by the failing `move_piece overState 0 1` call. -/
def overAfter : ChessBoard := ((move_piece overState 0 1).getD (Except.ok false, ChessBoard.new)).2

/-- Claim C1, counterexample.  In `bepState` the black pawn on square 27 has
the en-passant destination 18 in its `get_moves` set, even though the
mover's king is attacked under the hypothetical occupancy the claim
describes (source bit 27 cleared, destination bit 18 set, and the captured
white pawn removed from square 26 behind the destination): the black branch
of the king-safety filter tests `PieceType::WhitePawn`, so it never removes
the captured pawn and keeps the self-exposing capture. -/
theorem black_en_passant_filter_keeps_exposed_king :
    piece_atCore bepState 27 = PieceType.BlackPawn ∧
    bepState.en_passant_square = PIECE 18 ∧
    get_moves bepState 27 &&& PIECE 18 ≠ 0 ∧
    compute_white_attacks bepState
        (some ((bepState.black_pieces &&& compl64 (PIECE 27)) ||| PIECE 18))
        (some ((bepState.white_pieces &&& compl64 (PIECE 18)) &&& compl64 (PIECE 26))) &&&
      bepState.black_kings ≠ 0 :=
  ⟨rfl, rfl, by decide, by decide⟩

/-- Claim C2, counterexample.  In `epState` none of the four error
conditions holds for the move 36 to 43 (the game is ongoing, a piece stands
on 36, square 43 is in its non-empty legal-destination set, and the white
pawn belongs to the side to move), yet `move_piece` does not return a
success value: it panics (out-of-bounds `PIECE[64]` indexing) inside the
en-passant handling. -/
theorem move_piece_en_passant_panics_despite_no_error :
    epState.game_result = GameResult.Ongoing ∧
    epState.all_pieces &&& PIECE 36 ≠ 0 ∧
    get_moves epState 36 ≠ 0 ∧
    get_moves epState 36 &&& PIECE 43 ≠ 0 ∧
    epState.whites_turn = true ∧
    (piece_atCore epState 36).is_white = true ∧
    move_piece epState 36 43 = none :=
  ⟨rfl, by decide, by decide, by decide, rfl, rfl, rfl⟩

/-- Claim C3, counterexample.  Black's rook leaves its original corner h8
(square 63) and the move succeeds, but Black's kingside right (field `.2`)
is still held afterwards — the source clears the white kingside right
(field `.0`) on `from == SQUARE::H8` instead. -/
theorem black_rook_move_keeps_black_kingside_right :
    piece_atCore castleState 63 = PieceType.BlackRook ∧
    move_piece castleState 63 62 = some (Except.ok true, castleAfter) ∧
    castleAfter.castling_rights.c2 = true ∧
    castleAfter.castling_rights.c0 = false :=
  ⟨rfl, rfl, rfl, rfl⟩

/-- Claim C4, counterexample.  In `epState` — the spec's own en-passant
example — the white pawn on e5 (square 36) has the en-passant target d6
(square 43) in its legal set, but applying the move panics (the en-passant
removal calls `update_board_after_move` with target square 64, an
out-of-bounds index of the 64-entry `PIECE` table) instead of removing the
captured pawn and completing. -/
theorem en_passant_capture_panics :
    piece_atCore epState 36 = PieceType.WhitePawn ∧
    PIECE 43 = epState.en_passant_square ∧
    get_moves epState 36 &&& PIECE 43 ≠ 0 ∧
    move_piece epState 36 43 = none :=
  ⟨rfl, rfl, by decide, rfl⟩

/-- Claim C5, counterexample.  White's queen move c2-c7 completes, and the
resulting position is a stalemate by the engine's own probe
(`black_in_stalemate_ok` holds: Black to move, not in check, no black piece
has a legal destination), yet the game result stays `Ongoing`: the
stalemate evaluation inside `update_board` runs before the side to move
flips, so `black_in_stalemate` bails out with its not-blacks-turn error. -/
theorem stalemating_move_leaves_game_ongoing :
    move_piece qcState 10 50 = some (Except.ok true, qcAfter) ∧
    black_in_stalemate_ok qcAfter = true ∧
    black_in_check qcAfter none none = false ∧
    qcAfter.game_result = GameResult.Ongoing :=
  ⟨rfl, rfl, rfl, rfl⟩

/-- Claim C6, counterexample.  The pawn move a7-a8 without a chosen
promotion piece returns the pending-promotion signal `Ok(false)`, but the
pawn has already been moved in the piece boards while `update_board` was
skipped: afterwards `white_pieces` no longer equals the union of the six
white piece boards. -/
theorem pending_promotion_breaks_derived_boards :
    move_piece promoState 48 56 = some (Except.ok false, promoAfter) ∧
    promoAfter.white_pieces ≠
      (promoAfter.white_pawns ||| promoAfter.white_knights ||| promoAfter.white_bishops |||
       promoAfter.white_rooks ||| promoAfter.white_queens ||| promoAfter.white_kings) :=
  ⟨rfl, by decide⟩

/-- Claim C7, counterexample.  For the out-of-range square 64, `piece_at`
and `move_piece` both index the 64-entry `PIECE` table out of bounds and
abort (modelled by `none`) instead of returning a value. -/
theorem out_of_range_square_panics :
    piece_at ChessBoard.new 64 = none ∧ move_piece ChessBoard.new 64 0 = none :=
  ⟨rfl, rfl⟩

/-- Claim C9, counterexample.  Loading a position whose castling-rights
field is the subset `kq` of `KQkq` (in order), with the black king on e8
and the black rooks on a8 and h8, grants no right at all: the loader checks
each letter at a fixed character position (`K` at index 0, `Q` at 1, `k` at
2, `q` at 3), so the letters of `kq` are never seen.  The claim requires the
black kingside and queenside rights to be granted. -/
theorem load_castling_subset_grants_no_rights :
    kqState.black_kings &&& PIECE 60 ≠ 0 ∧
    kqState.black_rooks &&& PIECE 63 ≠ 0 ∧
    kqState.black_rooks &&& PIECE 56 ≠ 0 ∧
    kqState.castling_rights = ⟨false, false, false, false⟩ :=
  ⟨by decide, by decide, by decide, rfl⟩

/-- Claim C8: for every successful `move_piece` call (`Ok(true)` or the
pending-promotion `Ok(false)`), the halfmove clock afterwards is 0 when the
mover is a pawn or the destination was occupied (a capture), and the
previous value plus one otherwise; once the updated clock has reached 100
the final game result is never `Ongoing`; and for every completed
(`Ok(true)`) move — the only kind that runs the draw checks — the final
game result is the output of `move_piece_draws` on the stored position of
the mutated board, so that whenever the updated clock has reached 100 while
the game result right before the 50-move check (after the
checkmate/stalemate evaluation and the threefold check) is still `Ongoing`,
the final game result is `Draw`.  (On the pending-promotion path the mover
is a pawn, so the updated clock is 0 and the 100 threshold cannot be
reached.) -/
theorem move_piece_halfmove_clock_spec (s : ChessBoard) (fromSq toSq : Nat) (b : Bool)
    (s' : ChessBoard) (h : move_piece s fromSq toSq = some (Except.ok b, s')) :
    s'.halfmove_clock =
      (if (piece_atCore s fromSq).is_pawn || (s.all_pieces &&& PIECE toSq != 0) then 0
       else s.halfmove_clock + 1) ∧
    (100 ≤ s'.halfmove_clock → s'.game_result ≠ GameResult.Ongoing) ∧
    (b = true →
      ∃ s0 : ChessBoard,
        move_piece_apply s (piece_atCore s fromSq) fromSq toSq = some (false, s0) ∧
        s' = (move_piece_tail s0).2 ∧
        s'.game_result = (move_piece_draws (store_position (update_board s0))).game_result ∧
        ((if is_three_fold_repetition (store_position (update_board s0)) then GameResult.Draw
          else (store_position (update_board s0)).game_result) = GameResult.Ongoing →
          100 ≤ s'.halfmove_clock → s'.game_result = GameResult.Draw)) := by
  have hcore : move_piece_core s (piece_atCore s fromSq) fromSq toSq =
      some (Except.ok b, s') := by
    simp only [move_piece] at h
    split at h
    · simp at h
    · split at h
      · exact Option.noConfusion h
      · split at h
        · simp at h
        · split at h
          · simp at h
          · split at h
            · exact Option.noConfusion h
            · split at h
              · simp at h
              · split at h
                · simp at h
                · split at h
                  · simp at h
                  · exact h
  obtain ⟨-, hclk, h100, hok⟩ := move_piece_core_spec _ _ _ _ _ _ hcore
  refine ⟨hclk, h100, fun hb => ?_⟩
  obtain ⟨s0, hA, hS⟩ := hok (by rw [hb])
  have hres : s'.game_result =
      (move_piece_draws (store_position (update_board s0))).game_result := by
    rw [hS, move_piece_tail_result]
  have hclk0 : (store_position (update_board s0)).halfmove_clock = s'.halfmove_clock := by
    rw [hS, move_piece_tail_clock, store_update_clock]
  refine ⟨s0, hA, hS, hres, fun hOng hc => ?_⟩
  rw [hres]
  exact move_piece_draws_ongoing _ hOng (by rw [hclk0]; exact hc)

/-- Witness for claim C8: the queen move c2-c7 in `qcState` (no pawn, no
capture) takes the clock from 0 to 1 and completes with `Ok(true)`. -/
theorem move_piece_halfmove_clock_spec_witness :
    (qcAfter.halfmove_clock =
      (if (piece_atCore qcState 10).is_pawn || (qcState.all_pieces &&& PIECE 50 != 0) then 0
       else qcState.halfmove_clock + 1)) ∧
    (100 ≤ qcAfter.halfmove_clock → qcAfter.game_result ≠ GameResult.Ongoing) :=
  ⟨(move_piece_halfmove_clock_spec qcState 10 50 true qcAfter (by rfl)).1,
   (move_piece_halfmove_clock_spec qcState 10 50 true qcAfter (by rfl)).2.1⟩

/-- Claim C10: whenever `move_piece` returns an error for in-range squares,
the returned state is exactly the input state — every error return of the
source happens before any mutation. -/
theorem move_piece_error_leaves_state_unchanged (s : ChessBoard) (fromSq toSq : Nat)
    (e : MoveError) (s' : ChessBoard) (_hf : fromSq < 64) (_ht : toSq < 64)
    (h : move_piece s fromSq toSq = some (Except.error e, s')) : s' = s := by
  simp only [move_piece] at h
  split at h
  · simp only [Option.some.injEq, Prod.mk.injEq] at h; exact h.2.symm
  · split at h
    · exact Option.noConfusion h
    · split at h
      · simp only [Option.some.injEq, Prod.mk.injEq] at h; exact h.2.symm
      · split at h
        · simp only [Option.some.injEq, Prod.mk.injEq] at h; exact h.2.symm
        · split at h
          · exact Option.noConfusion h
          · split at h
            · simp only [Option.some.injEq, Prod.mk.injEq] at h; exact h.2.symm
            · split at h
              · simp only [Option.some.injEq, Prod.mk.injEq] at h; exact h.2.symm
              · split at h
                · simp only [Option.some.injEq, Prod.mk.injEq] at h; exact h.2.symm
                · obtain ⟨⟨bb, hbb⟩, -, -, -⟩ := move_piece_core_spec _ _ _ _ _ _ h
                  exact Except.noConfusion hbb

/-- Witness for claim C10: attempting any move after the game has ended
(here on `overState`) errors and returns the state unchanged. -/
theorem move_piece_error_leaves_state_unchanged_witness :
    (0 : Nat) < 64 ∧ (1 : Nat) < 64 ∧ overAfter = overState :=
  ⟨by decide, by decide,
    move_piece_error_leaves_state_unchanged overState 0 1 MoveError.GameFinished overAfter
      (by decide) (by decide) rfl⟩
